import Mathlib

/-!
Verification of the admission-control and command-channel layer of the
food-yeh backend: a shallow embedding of `backend/utils/rate_limiter.py`
and `backend/services/mqtt_client.py`, with theorems settling the
behavioural claims about them.
-/

namespace FoodYeh

/-! ## Counter Store model

The Redis backend is modelled as a total map from keys to sorted sets of
integer timestamps (the only members ever inserted are `str(current_time)`
with score `current_time`, so a member is determined by its timestamp),
together with a TTL map (`expire` / `delete`).  A missing key is the empty
set, matching `ZCARD` on a missing key returning 0. -/

structure Store where
  data : String → Finset Int
  ttl : String → Option Int

def emptyStore : Store :=
  { data := fun _ => (∅ : Finset Int), ttl := fun _ => none }

/-- Embeds `RateLimiter._generate_key`: `f"rate_limit:{prefix}:{identifier}:{window}"`. -/
def generateKey (pfx identifier window : String) : String :=
  "rate_limit:" ++ pfx ++ ":" ++ identifier ++ ":" ++ window

/-- Embeds the Redis-available path of `RateLimiter._is_rate_limited`
(rate_limiter.py lines 71-89): within one pipeline,
`zremrangebyscore key 0 (window_start - 1)` with
`window_start = current_time - (current_time % window_seconds)`, then
`zadd key (str current_time) current_time` (member determined by the
timestamp, so a duplicate second collapses), then `zcard`, then
`expire key window_seconds`.  Returns `((is_limited, current_count,
remaining_seconds), new store)` with `is_limited = current_count > limit`. -/
def isRateLimitedCore (st : Store) (key : String) (lim windowSeconds currentTime : Int) :
    (Bool × Int × Int) × Store :=
  let windowStart := currentTime - currentTime % windowSeconds
  let afterPrune := (st.data key).filter (fun t => ¬ (0 ≤ t ∧ t ≤ windowStart - 1))
  let afterAdd := insert currentTime afterPrune
  let currentCount : Int := (afterAdd.card : Int)
  ((decide (lim < currentCount), currentCount, windowSeconds - currentTime % windowSeconds),
   { data := fun k => if k = key then afterAdd else st.data k,
     ttl := fun k => if k = key then some windowSeconds else st.ttl k })

/-- Embeds `RateLimiter._is_rate_limited` including the guard at lines 67-69:
when Redis is unavailable (`self.redis is None`) it returns `(False, 0, 0)`
without touching the store. -/
def isRateLimited (available : Bool) (st : Store) (key : String)
    (lim windowSeconds currentTime : Int) : (Bool × Int × Int) × Store :=
  match available with
  | true => isRateLimitedCore st key lim windowSeconds currentTime
  | false => ((false, 0, 0), st)

/-- Outcome of `RateLimiter.check_rate_limit`: either the request passes, or an
HTTP 429 is raised carrying the error string, limit type, limit, current count
and reset time of the window that denied. -/
inductive RLOutcome where
  | allowed : RLOutcome
  | limited (err : String) (limitType : String) (lim current resetIn : Int) : RLOutcome
deriving DecidableEq

/-- Embeds `RateLimiter.check_rate_limit` (rate_limiter.py lines 91-197).
`hash` stands for `hashlib.sha256(...).hexdigest()` applied to the raw token;
`lpm` / `lph` are the effective per-minute / per-hour limits after the
`or settings...` defaulting at lines 115-116.  Besides the outcome and the
final store, the third component records, in order, the keys on which
`_is_rate_limited` was invoked (each such call inserts the current event
for its key). -/
def checkRateLimit (available : Bool) (hash : String → String) (st : Store)
    (clientIp : String) (token : Option String) (lpm lph currentTime : Int) :
    RLOutcome × Store × List String :=
  match available with
  | false => (RLOutcome.allowed, st, [])
  | true =>
    let ipKeyMinute := generateKey "ip" clientIp "minute"
    let ipKeyHour := generateKey "ip" clientIp "hour"
    let rMin := isRateLimited true st ipKeyMinute lpm 60 currentTime
    let rHour := isRateLimited true rMin.2 ipKeyHour lph 3600 currentTime
    if rMin.1.1 then
      (RLOutcome.limited "Rate limit exceeded" "per_minute" lpm rMin.1.2.1 rMin.1.2.2,
       rHour.2, [ipKeyMinute, ipKeyHour])
    else if rHour.1.1 then
      (RLOutcome.limited "Rate limit exceeded" "per_hour" lph rHour.1.2.1 rHour.1.2.2,
       rHour.2, [ipKeyMinute, ipKeyHour])
    else
      match token with
      | none => (RLOutcome.allowed, rHour.2, [ipKeyMinute, ipKeyHour])
      | some t =>
        let tokenKeyMinute := generateKey "token" (hash t) "minute"
        let tokenKeyHour := generateKey "token" (hash t) "hour"
        let rTMin := isRateLimited true rHour.2 tokenKeyMinute lpm 60 currentTime
        let rTHour := isRateLimited true rTMin.2 tokenKeyHour lph 3600 currentTime
        if rTMin.1.1 then
          (RLOutcome.limited "Token rate limit exceeded" "per_minute" lpm rTMin.1.2.1 rTMin.1.2.2,
           rTHour.2, [ipKeyMinute, ipKeyHour, tokenKeyMinute, tokenKeyHour])
        else if rTHour.1.1 then
          (RLOutcome.limited "Token rate limit exceeded" "per_hour" lph rTHour.1.2.1 rTHour.1.2.2,
           rTHour.2, [ipKeyMinute, ipKeyHour, tokenKeyMinute, tokenKeyHour])
        else
          (RLOutcome.allowed, rTHour.2, [ipKeyMinute, ipKeyHour, tokenKeyMinute, tokenKeyHour])

/-- Embeds `RateLimiter.clear_rate_limits` (rate_limiter.py lines 237-260):
`DEL` of both the minute and the hour key of the given scope and identifier,
returning `True`; returns `False` only when Redis is unavailable. -/
def clearRateLimits (available : Bool) (st : Store) (limitType identifier : String) :
    Bool × Store :=
  match available with
  | true =>
    let minuteKey := generateKey limitType identifier "minute"
    let hourKey := generateKey limitType identifier "hour"
    (true,
     { data := fun k => if k = minuteKey ∨ k = hourKey then (∅ : Finset Int) else st.data k,
       ttl := fun k => if k = minuteKey ∨ k = hourKey then none else st.ttl k })
  | false => (false, st)

/-- A sequence of admit checks against one key, threading the store; for each
check it records `(allowed, current_count)` where `allowed` is the negation of
the `is_limited` flag returned by `_is_rate_limited`. -/
def admitSeq (key : String) (lim windowSeconds : Int) :
    Store → List Int → List (Bool × Int) × Store
  | st, [] => ([], st)
  | st, t :: ts =>
    let r := isRateLimited true st key lim windowSeconds t
    let rest := admitSeq key lim windowSeconds r.2 ts
    ((!r.1.1, r.1.2.1) :: rest.1, rest.2)

/-! ## Claim theorems for the rate limiter (part 1) -/

/-- Claim C1: the decision rule is `allowed = count <= limit`, but the derived
sequence property fails on the code: four `admit()` calls issued
instantaneously (same integer second, as produced by `int(time.time())`)
against a fresh key with limit 3 are ALL admitted with `current = 1`, because
`zadd` uses `str(current_time)` as the member, so events of the same second
collapse to a single sorted-set entry; the claimed decisions
`[true, true, true, false]` with the fourth carrying `current = 4` do not
occur.  This theorem evaluates the embedded code at the failing input. -/
theorem admit_same_second_burst_all_admitted :
    (admitSeq (generateKey "ip" "1.2.3.4" "minute") 3 60 emptyStore
      [100, 100, 100, 100]).1 =
      [(true, 1), (true, 1), (true, 1), (true, 1)] := by
  decide

/-- Claim C2: when the Counter Store is unreachable (`self.redis is None`),
every admit check returns not-limited (allowed) with count 0 and leaves the
store untouched, and `check_rate_limit` returns without raising the
rate-limit error — regardless of key, identity, token, limits or prior
history in the store. -/
theorem admit_fails_open_when_store_unavailable
    (st : Store) (key : String) (lim windowSeconds currentTime : Int)
    (hash : String → String) (clientIp : String) (token : Option String)
    (lpm lph : Int) :
    isRateLimited false st key lim windowSeconds currentTime = ((false, 0, 0), st) ∧
    checkRateLimit false hash st clientIp token lpm lph currentTime =
      (RLOutcome.allowed, st, []) := by
  constructor <;> rfl

/-- The count the spec's claim attributes to a check: the number of events of
the post-insert set whose timestamp lies in `[now - windowSeconds, now]`. -/
def claimedWindowCount (events : Finset Int) (windowSeconds now : Int) : Int :=
  (((insert now events).filter (fun t => now - windowSeconds ≤ t ∧ t ≤ now)).card : Int)

/-- A concrete store holding one event at second 40 under the IP-minute key of
identity 1.2.3.4. -/
def storeWithEvent40 : Store :=
  { data := fun k =>
      if k = generateKey "ip" "1.2.3.4" "minute" then ({40} : Finset Int)
      else (∅ : Finset Int),
    ttl := fun _ => none }

/-- Claim C5 counterexample: at `now = 90` with `windowSeconds = 60` the code
prunes with cutoff `now - (now % windowSeconds) = 60` (the fixed wall-clock
bucket start), not `now - windowSeconds = 30`: the event at second 40 — inside
`[30, 90]`, so kept and counted according to the claim — is removed, and the
reported count is 1 where the claim predicts 2. -/
theorem prune_cutoff_counterexample :
    (isRateLimitedCore storeWithEvent40
        (generateKey "ip" "1.2.3.4" "minute") 10 60 90).1.2.1 = 1 ∧
    claimedWindowCount (storeWithEvent40.data (generateKey "ip" "1.2.3.4" "minute")) 60 90 = 2 ∧
    (isRateLimitedCore storeWithEvent40
        (generateKey "ip" "1.2.3.4" "minute") 10 60 90).1.2.1 ≠
      claimedWindowCount (storeWithEvent40.data (generateKey "ip" "1.2.3.4" "minute")) 60 90 := by
  refine ⟨by decide, by decide, by decide⟩

/-- Claim C5 amended: the atomic round-trip removes exactly the events with
timestamp older than the current fixed window bucket start
`now - (now % windowSeconds)` (not `now - windowSeconds`), inserts an event at
`now`, reads the resulting cardinality — which therefore equals the number of
events of the post-insert set falling within
`[now - (now % windowSeconds), now]` — refreshes the key's expiry to
`windowSeconds`, leaves every other key untouched, and reports
`windowSeconds - (now % windowSeconds)` as the reset time. -/
theorem admit_roundtrip_bucket_window
    (st : Store) (key : String) (lim ws now : Int)
    (hws : 0 < ws)
    (hev : ∀ t ∈ st.data key, 0 ≤ t ∧ t ≤ now) :
    (isRateLimitedCore st key lim ws now).2.data key =
      insert now ((st.data key).filter (fun t => now - now % ws ≤ t)) ∧
    (isRateLimitedCore st key lim ws now).1.2.1 =
      (((insert now (st.data key)).filter
          (fun t => now - now % ws ≤ t ∧ t ≤ now)).card : Int) ∧
    (isRateLimitedCore st key lim ws now).2.ttl key = some ws ∧
    (∀ k, k ≠ key → (isRateLimitedCore st key lim ws now).2.data k = st.data k ∧
      (isRateLimitedCore st key lim ws now).2.ttl k = st.ttl k) ∧
    (isRateLimitedCore st key lim ws now).1.2.2 = ws - now % ws := by
  have hws0 : ws ≠ 0 := by omega
  have hmod : 0 ≤ now % ws := Int.emod_nonneg now hws0
  have h1 : (st.data key).filter (fun t => ¬ (0 ≤ t ∧ t ≤ now - now % ws - 1)) =
      (st.data key).filter (fun t => now - now % ws ≤ t) := by
    apply Finset.filter_congr
    intro t ht
    have h2 := hev t ht
    omega
  have h3 : (st.data key).filter (fun t => now - now % ws ≤ t ∧ t ≤ now) =
      (st.data key).filter (fun t => now - now % ws ≤ t) := by
    apply Finset.filter_congr
    intro t ht
    have h2 := hev t ht
    omega
  have h4 : (insert now (st.data key)).filter (fun t => now - now % ws ≤ t ∧ t ≤ now) =
      insert now ((st.data key).filter (fun t => now - now % ws ≤ t ∧ t ≤ now)) := by
    rw [Finset.filter_insert, if_pos (show now - now % ws ≤ now ∧ now ≤ now by omega)]
  have hd : (isRateLimitedCore st key lim ws now).2.data key =
      insert now ((st.data key).filter (fun t => ¬ (0 ≤ t ∧ t ≤ now - now % ws - 1))) := by
    simp [isRateLimitedCore]
  have hc : (isRateLimitedCore st key lim ws now).1.2.1 =
      (((insert now ((st.data key).filter
          (fun t => ¬ (0 ≤ t ∧ t ≤ now - now % ws - 1)))).card : Int) : Int) := rfl
  refine ⟨?_, ?_, ?_, ?_, ?_⟩
  · rw [hd, h1]
  · rw [hc, h1, h4, h3]
  · simp [isRateLimitedCore]
  · intro k hk
    constructor
    · simp [isRateLimitedCore, hk]
    · simp [isRateLimitedCore, hk]
  · rfl

/-- Claim C5 witness: the amended round-trip description instantiated at the
concrete store holding an event at second 40, checked at `now = 90` with
window 60. -/
theorem admit_roundtrip_bucket_window_witness :
    (isRateLimitedCore storeWithEvent40
        (generateKey "ip" "1.2.3.4" "minute") 10 60 90).1.2.1 =
      (((insert (90 : Int)
          (storeWithEvent40.data (generateKey "ip" "1.2.3.4" "minute"))).filter
            (fun t => 90 - (90 : Int) % 60 ≤ t ∧ t ≤ 90)).card : Int) :=
  (admit_roundtrip_bucket_window storeWithEvent40
    (generateKey "ip" "1.2.3.4" "minute") 10 60 90 (by decide) (by decide)).2.1

/-! ## Claim C8: administrative reset -/

/-- Claim C8: `clear(scope, identifier)` deletes both the minute and hour
window counters of that identity (their event sets become empty and their
expiries are dropped, all other keys untouched), reports success for every
store — in particular also when the keys did not exist — is idempotent, and
a subsequent admit check on either cleared window behaves as on a fresh key:
its count is 1 and it is admitted for any limit `>= 1`. -/
theorem clear_rate_limits_reset
    (st : Store) (scope identifier : String) (lim now : Int) (hlim : 1 ≤ lim) :
    (clearRateLimits true st scope identifier).1 = true ∧
    (clearRateLimits true st scope identifier).2.data
      (generateKey scope identifier "minute") = (∅ : Finset Int) ∧
    (clearRateLimits true st scope identifier).2.data
      (generateKey scope identifier "hour") = (∅ : Finset Int) ∧
    (clearRateLimits true st scope identifier).2.ttl
      (generateKey scope identifier "minute") = none ∧
    (clearRateLimits true st scope identifier).2.ttl
      (generateKey scope identifier "hour") = none ∧
    (∀ k, k ≠ generateKey scope identifier "minute" →
      k ≠ generateKey scope identifier "hour" →
      (clearRateLimits true st scope identifier).2.data k = st.data k ∧
      (clearRateLimits true st scope identifier).2.ttl k = st.ttl k) ∧
    clearRateLimits true (clearRateLimits true st scope identifier).2 scope identifier =
      clearRateLimits true st scope identifier ∧
    (isRateLimited true (clearRateLimits true st scope identifier).2
      (generateKey scope identifier "minute") lim 60 now).1 =
      (false, 1, 60 - now % 60) ∧
    (isRateLimited true (clearRateLimits true st scope identifier).2
      (generateKey scope identifier "hour") lim 3600 now).1 =
      (false, 1, 3600 - now % 3600) := by
  have hdecide : decide (lim < (1 : Int)) = false := by
    simp only [decide_eq_false_iff_not, not_lt]
    omega
  have hfresh : ∀ (st' : Store) (key : String) (ws : Int), st'.data key = (∅ : Finset Int) →
      (isRateLimited true st' key lim ws now).1 = (false, 1, ws - now % ws) := by
    intro st' key ws hdata
    simp [isRateLimited, isRateLimitedCore, hdata, hdecide]
  refine ⟨rfl, ?_, ?_, ?_, ?_, ?_, ?_, ?_, ?_⟩
  · simp [clearRateLimits]
  · simp [clearRateLimits]
  · simp [clearRateLimits]
  · simp [clearRateLimits]
  · intro k h1 h2
    constructor
    · simp [clearRateLimits, h1, h2]
    · simp [clearRateLimits, h1, h2]
  · simp only [clearRateLimits]
    refine congrArg (Prod.mk true) ?_
    refine congrArg₂ Store.mk ?_ ?_
    · funext k
      by_cases h : k = generateKey scope identifier "minute" ∨
          k = generateKey scope identifier "hour"
      · simp [h]
      · simp [h]
    · funext k
      by_cases h : k = generateKey scope identifier "minute" ∨
          k = generateKey scope identifier "hour"
      · simp [h]
      · simp [h]
  · apply hfresh
    simp [clearRateLimits]
  · apply hfresh
    simp [clearRateLimits]

/-- Claim C8 witness: clearing the IP-scope identity 1.2.3.4 in the store that
holds an event for it, then admitting once with limit 1 at second 90, yields a
fresh count of 1 and admission. -/
theorem clear_rate_limits_reset_witness :
    (isRateLimited true (clearRateLimits true storeWithEvent40 "ip" "1.2.3.4").2
      (generateKey "ip" "1.2.3.4" "minute") 1 60 90).1 = (false, 1, 60 - (90 : Int) % 60) :=
  (clear_rate_limits_reset storeWithEvent40 "ip" "1.2.3.4" 1 90 (by decide)).2.2.2.2.2.2.2.1

/-! ## Claim C6: façade check order and short-circuiting -/

/-- The first admit check `check_rate_limit` performs: IP-scope minute. -/
def ipMinuteCheck (st : Store) (ip : String) (lpm now : Int) :
    (Bool × Int × Int) × Store :=
  isRateLimited true st (generateKey "ip" ip "minute") lpm 60 now

/-- The second admit check: IP-scope hour, on the store left by the minute
check. -/
def ipHourCheck (st : Store) (ip : String) (lpm lph now : Int) :
    (Bool × Int × Int) × Store :=
  isRateLimited true (ipMinuteCheck st ip lpm now).2 (generateKey "ip" ip "hour") lph 3600 now

/-- The third admit check (token present, both IP windows admitted):
token-scope minute. -/
def tokenMinuteCheck (hash : String → String) (st : Store) (ip t : String)
    (lpm lph now : Int) : (Bool × Int × Int) × Store :=
  isRateLimited true (ipHourCheck st ip lpm lph now).2
    (generateKey "token" (hash t) "minute") lpm 60 now

/-- The fourth admit check: token-scope hour. -/
def tokenHourCheck (hash : String → String) (st : Store) (ip t : String)
    (lpm lph now : Int) : (Bool × Int × Int) × Store :=
  isRateLimited true (tokenMinuteCheck hash st ip t lpm lph now).2
    (generateKey "token" (hash t) "hour") lph 3600 now

/-- A store holding one event at second 10 under the IP-minute key of
identity 1.2.3.4 and nothing else. -/
def storeIpMinuteEvent10 : Store :=
  { data := fun k =>
      if k = generateKey "ip" "1.2.3.4" "minute" then ({10} : Finset Int)
      else (∅ : Finset Int),
    ttl := fun _ => none }

/-- Claim C6 counterexample: with the IP-minute window already holding one
event, per-minute limit 1 and per-hour limit 100, a request at second 11 is
denied by the IP-minute window — yet the IP-hour window, a later window in the
claimed order, has still been checked and its counter incremented (its key
appears in the trace of `_is_rate_limited` invocations and now holds the
event at second 11), contradicting "once one window denies, no later window
in that order is checked or has its counter incremented". -/
theorem ip_hour_checked_after_minute_denial :
    (checkRateLimit true (fun s => s) storeIpMinuteEvent10 "1.2.3.4" none 1 100 11).1 =
      RLOutcome.limited "Rate limit exceeded" "per_minute" 1 2 49 ∧
    (checkRateLimit true (fun s => s) storeIpMinuteEvent10 "1.2.3.4" none 1 100 11).2.2 =
      [generateKey "ip" "1.2.3.4" "minute", generateKey "ip" "1.2.3.4" "hour"] ∧
    (checkRateLimit true (fun s => s) storeIpMinuteEvent10 "1.2.3.4" none 1 100 11).2.1.data
      (generateKey "ip" "1.2.3.4" "hour") = ({11} : Finset Int) ∧
    storeIpMinuteEvent10.data (generateKey "ip" "1.2.3.4" "hour") = (∅ : Finset Int) := by
  refine ⟨by decide, by decide, by decide, by decide⟩

/-- Claim C6 amended: the façade checks the windows in the order IP-minute,
IP-hour, token-minute, token-hour; the two IP windows are always both checked
(and both incremented) before any denial is raised, and likewise the two token
windows are both checked once the token block is entered; the first denial in
that order determines the outcome, and an IP-window denial short-circuits the
token windows entirely (they are neither checked nor incremented); every key
not in the trace of performed checks keeps its counter and expiry. -/
theorem facade_check_order_and_short_circuit
    (hash : String → String) (st : Store) (ip : String) (token : Option String)
    (lpm lph now : Int) :
    ((ipMinuteCheck st ip lpm now).1.1 = true →
      checkRateLimit true hash st ip token lpm lph now =
        (RLOutcome.limited "Rate limit exceeded" "per_minute" lpm
            (ipMinuteCheck st ip lpm now).1.2.1 (ipMinuteCheck st ip lpm now).1.2.2,
         (ipHourCheck st ip lpm lph now).2,
         [generateKey "ip" ip "minute", generateKey "ip" ip "hour"])) ∧
    ((ipMinuteCheck st ip lpm now).1.1 = false →
      (ipHourCheck st ip lpm lph now).1.1 = true →
      checkRateLimit true hash st ip token lpm lph now =
        (RLOutcome.limited "Rate limit exceeded" "per_hour" lph
            (ipHourCheck st ip lpm lph now).1.2.1 (ipHourCheck st ip lpm lph now).1.2.2,
         (ipHourCheck st ip lpm lph now).2,
         [generateKey "ip" ip "minute", generateKey "ip" ip "hour"])) ∧
    ((ipMinuteCheck st ip lpm now).1.1 = false →
      (ipHourCheck st ip lpm lph now).1.1 = false → token = none →
      checkRateLimit true hash st ip token lpm lph now =
        (RLOutcome.allowed, (ipHourCheck st ip lpm lph now).2,
         [generateKey "ip" ip "minute", generateKey "ip" ip "hour"])) ∧
    (∀ t, token = some t →
      (ipMinuteCheck st ip lpm now).1.1 = false →
      (ipHourCheck st ip lpm lph now).1.1 = false →
      (tokenMinuteCheck hash st ip t lpm lph now).1.1 = true →
      checkRateLimit true hash st ip token lpm lph now =
        (RLOutcome.limited "Token rate limit exceeded" "per_minute" lpm
            (tokenMinuteCheck hash st ip t lpm lph now).1.2.1
            (tokenMinuteCheck hash st ip t lpm lph now).1.2.2,
         (tokenHourCheck hash st ip t lpm lph now).2,
         [generateKey "ip" ip "minute", generateKey "ip" ip "hour",
          generateKey "token" (hash t) "minute", generateKey "token" (hash t) "hour"])) ∧
    (∀ t, token = some t →
      (ipMinuteCheck st ip lpm now).1.1 = false →
      (ipHourCheck st ip lpm lph now).1.1 = false →
      (tokenMinuteCheck hash st ip t lpm lph now).1.1 = false →
      (tokenHourCheck hash st ip t lpm lph now).1.1 = true →
      checkRateLimit true hash st ip token lpm lph now =
        (RLOutcome.limited "Token rate limit exceeded" "per_hour" lph
            (tokenHourCheck hash st ip t lpm lph now).1.2.1
            (tokenHourCheck hash st ip t lpm lph now).1.2.2,
         (tokenHourCheck hash st ip t lpm lph now).2,
         [generateKey "ip" ip "minute", generateKey "ip" ip "hour",
          generateKey "token" (hash t) "minute", generateKey "token" (hash t) "hour"])) ∧
    (∀ t, token = some t →
      (ipMinuteCheck st ip lpm now).1.1 = false →
      (ipHourCheck st ip lpm lph now).1.1 = false →
      (tokenMinuteCheck hash st ip t lpm lph now).1.1 = false →
      (tokenHourCheck hash st ip t lpm lph now).1.1 = false →
      checkRateLimit true hash st ip token lpm lph now =
        (RLOutcome.allowed, (tokenHourCheck hash st ip t lpm lph now).2,
         [generateKey "ip" ip "minute", generateKey "ip" ip "hour",
          generateKey "token" (hash t) "minute", generateKey "token" (hash t) "hour"])) ∧
    (∀ k, k ∉ (checkRateLimit true hash st ip token lpm lph now).2.2 →
      (checkRateLimit true hash st ip token lpm lph now).2.1.data k = st.data k ∧
      (checkRateLimit true hash st ip token lpm lph now).2.1.ttl k = st.ttl k) := by
  have pres : ∀ (st' : Store) (key : String) (lim ws t' : Int) (k : String), k ≠ key →
      (isRateLimited true st' key lim ws t').2.data k = st'.data k ∧
      (isRateLimited true st' key lim ws t').2.ttl k = st'.ttl k := by
    intro st' key lim ws t' k hk
    constructor
    · simp [isRateLimited, isRateLimitedCore, hk]
    · simp [isRateLimited, isRateLimitedCore, hk]
  refine ⟨?_, ?_, ?_, ?_, ?_, ?_, ?_⟩
  · intro h
    simp only [ipMinuteCheck] at h
    simp [checkRateLimit, h, ipMinuteCheck, ipHourCheck]
  · intro h1 h2
    simp only [ipMinuteCheck] at h1
    simp only [ipHourCheck, ipMinuteCheck] at h2
    simp [checkRateLimit, h1, h2, ipMinuteCheck, ipHourCheck]
  · intro h1 h2 h3
    simp only [ipMinuteCheck] at h1
    simp only [ipHourCheck, ipMinuteCheck] at h2
    subst h3
    simp [checkRateLimit, h1, h2, ipMinuteCheck, ipHourCheck]
  · intro t ht h1 h2 h3
    simp only [ipMinuteCheck] at h1
    simp only [ipHourCheck, ipMinuteCheck] at h2
    simp only [tokenMinuteCheck, ipHourCheck, ipMinuteCheck] at h3
    subst ht
    simp [checkRateLimit, h1, h2, h3, ipMinuteCheck, ipHourCheck, tokenMinuteCheck,
      tokenHourCheck]
  · intro t ht h1 h2 h3 h4
    simp only [ipMinuteCheck] at h1
    simp only [ipHourCheck, ipMinuteCheck] at h2
    simp only [tokenMinuteCheck, ipHourCheck, ipMinuteCheck] at h3
    simp only [tokenHourCheck, tokenMinuteCheck, ipHourCheck, ipMinuteCheck] at h4
    subst ht
    simp [checkRateLimit, h1, h2, h3, h4, ipMinuteCheck, ipHourCheck, tokenMinuteCheck,
      tokenHourCheck]
  · intro t ht h1 h2 h3 h4
    simp only [ipMinuteCheck] at h1
    simp only [ipHourCheck, ipMinuteCheck] at h2
    simp only [tokenMinuteCheck, ipHourCheck, ipMinuteCheck] at h3
    simp only [tokenHourCheck, tokenMinuteCheck, ipHourCheck, ipMinuteCheck] at h4
    subst ht
    simp [checkRateLimit, h1, h2, h3, h4, ipMinuteCheck, ipHourCheck, tokenMinuteCheck,
      tokenHourCheck]
  · intro k hk
    rcases token with _ | t
    · by_cases h1 : (isRateLimited true st (generateKey "ip" ip "minute") lpm 60 now).1.1 = true
      · simp only [checkRateLimit, h1, if_true] at hk ⊢
        simp only [List.mem_cons, List.not_mem_nil, or_false, not_or] at hk
        exact ⟨((pres _ _ _ _ _ k hk.2).1).trans (pres _ _ _ _ _ k hk.1).1,
          ((pres _ _ _ _ _ k hk.2).2).trans (pres _ _ _ _ _ k hk.1).2⟩
      · rw [Bool.not_eq_true] at h1
        by_cases h2 : (isRateLimited true
            (isRateLimited true st (generateKey "ip" ip "minute") lpm 60 now).2
            (generateKey "ip" ip "hour") lph 3600 now).1.1 = true
        · simp only [checkRateLimit, h1, h2, Bool.false_eq_true, if_false, if_true] at hk ⊢
          simp only [List.mem_cons, List.not_mem_nil, or_false, not_or] at hk
          exact ⟨((pres _ _ _ _ _ k hk.2).1).trans (pres _ _ _ _ _ k hk.1).1,
            ((pres _ _ _ _ _ k hk.2).2).trans (pres _ _ _ _ _ k hk.1).2⟩
        · rw [Bool.not_eq_true] at h2
          simp only [checkRateLimit, h1, h2, Bool.false_eq_true, if_false] at hk ⊢
          simp only [List.mem_cons, List.not_mem_nil, or_false, not_or] at hk
          exact ⟨((pres _ _ _ _ _ k hk.2).1).trans (pres _ _ _ _ _ k hk.1).1,
            ((pres _ _ _ _ _ k hk.2).2).trans (pres _ _ _ _ _ k hk.1).2⟩
    · by_cases h1 : (isRateLimited true st (generateKey "ip" ip "minute") lpm 60 now).1.1 = true
      · simp only [checkRateLimit, h1, if_true] at hk ⊢
        simp only [List.mem_cons, List.not_mem_nil, or_false, not_or] at hk
        exact ⟨((pres _ _ _ _ _ k hk.2).1).trans (pres _ _ _ _ _ k hk.1).1,
          ((pres _ _ _ _ _ k hk.2).2).trans (pres _ _ _ _ _ k hk.1).2⟩
      · rw [Bool.not_eq_true] at h1
        by_cases h2 : (isRateLimited true
            (isRateLimited true st (generateKey "ip" ip "minute") lpm 60 now).2
            (generateKey "ip" ip "hour") lph 3600 now).1.1 = true
        · simp only [checkRateLimit, h1, h2, Bool.false_eq_true, if_false, if_true] at hk ⊢
          simp only [List.mem_cons, List.not_mem_nil, or_false, not_or] at hk
          exact ⟨((pres _ _ _ _ _ k hk.2).1).trans (pres _ _ _ _ _ k hk.1).1,
            ((pres _ _ _ _ _ k hk.2).2).trans (pres _ _ _ _ _ k hk.1).2⟩
        · rw [Bool.not_eq_true] at h2
          by_cases h3 : (isRateLimited true (isRateLimited true
              (isRateLimited true st (generateKey "ip" ip "minute") lpm 60 now).2
              (generateKey "ip" ip "hour") lph 3600 now).2
              (generateKey "token" (hash t) "minute") lpm 60 now).1.1 = true
          · simp only [checkRateLimit, h1, h2, h3, Bool.false_eq_true, if_false, if_true] at hk ⊢
            simp only [List.mem_cons, List.not_mem_nil, or_false, not_or] at hk
            exact ⟨((((pres _ _ _ _ _ k hk.2.2.2).1).trans
                (pres _ _ _ _ _ k hk.2.2.1).1).trans
                (pres _ _ _ _ _ k hk.2.1).1).trans (pres _ _ _ _ _ k hk.1).1,
              ((((pres _ _ _ _ _ k hk.2.2.2).2).trans
                (pres _ _ _ _ _ k hk.2.2.1).2).trans
                (pres _ _ _ _ _ k hk.2.1).2).trans (pres _ _ _ _ _ k hk.1).2⟩
          · rw [Bool.not_eq_true] at h3
            by_cases h4 : (isRateLimited true (isRateLimited true (isRateLimited true
                (isRateLimited true st (generateKey "ip" ip "minute") lpm 60 now).2
                (generateKey "ip" ip "hour") lph 3600 now).2
                (generateKey "token" (hash t) "minute") lpm 60 now).2
                (generateKey "token" (hash t) "hour") lph 3600 now).1.1 = true
            · simp only [checkRateLimit, h1, h2, h3, h4, Bool.false_eq_true, if_false,
                if_true] at hk ⊢
              simp only [List.mem_cons, List.not_mem_nil, or_false, not_or] at hk
              exact ⟨((((pres _ _ _ _ _ k hk.2.2.2).1).trans
                  (pres _ _ _ _ _ k hk.2.2.1).1).trans
                  (pres _ _ _ _ _ k hk.2.1).1).trans (pres _ _ _ _ _ k hk.1).1,
                ((((pres _ _ _ _ _ k hk.2.2.2).2).trans
                  (pres _ _ _ _ _ k hk.2.2.1).2).trans
                  (pres _ _ _ _ _ k hk.2.1).2).trans (pres _ _ _ _ _ k hk.1).2⟩
            · rw [Bool.not_eq_true] at h4
              simp only [checkRateLimit, h1, h2, h3, h4, Bool.false_eq_true, if_false] at hk ⊢
              simp only [List.mem_cons, List.not_mem_nil, or_false, not_or] at hk
              exact ⟨((((pres _ _ _ _ _ k hk.2.2.2).1).trans
                  (pres _ _ _ _ _ k hk.2.2.1).1).trans
                  (pres _ _ _ _ _ k hk.2.1).1).trans (pres _ _ _ _ _ k hk.1).1,
                ((((pres _ _ _ _ _ k hk.2.2.2).2).trans
                  (pres _ _ _ _ _ k hk.2.2.1).2).trans
                  (pres _ _ _ _ _ k hk.2.1).2).trans (pres _ _ _ _ _ k hk.1).2⟩

/-- Claim C6 witness: the amended minute-denial branch instantiated at the
concrete store in which the IP-minute window denies at second 11: both IP
windows appear in the trace and the outcome is the per-minute denial. -/
theorem facade_check_order_witness :
    checkRateLimit true (fun s => s) storeIpMinuteEvent10 "1.2.3.4" none 1 100 11 =
      (RLOutcome.limited "Rate limit exceeded" "per_minute" 1
          (ipMinuteCheck storeIpMinuteEvent10 "1.2.3.4" 1 11).1.2.1
          (ipMinuteCheck storeIpMinuteEvent10 "1.2.3.4" 1 11).1.2.2,
       (ipHourCheck storeIpMinuteEvent10 "1.2.3.4" 1 100 11).2,
       [generateKey "ip" "1.2.3.4" "minute", generateKey "ip" "1.2.3.4" "hour"]) :=
  (facade_check_order_and_short_circuit (fun s => s) storeIpMinuteEvent10 "1.2.3.4"
    none 1 100 11).1 (by decide)

/-! ## Channel Manager model

`MQTTService` from `backend/services/mqtt_client.py`: the connection state the
service itself owns is the mutable fields set in `__init__` (lines 21-37).
The paho client handle, broker I/O and logging are external; the callbacks
`_on_connect`, `_on_disconnect`, `_on_message` and the public methods are
embedded as pure state transformers. -/

structure MQTTState where
  is_connected : Bool
  connection_attempts : Nat
  max_connection_attempts : Nat
  reconnect_delay : Nat
  last_connection_time : Option Int
  last_message_time : Option Int
deriving DecidableEq

/-- The field values set in `MQTTService.__init__`: disconnected, zero
attempts, budget 5, delay 5 seconds, no times recorded. -/
def initialMQTTState : MQTTState :=
  { is_connected := false
    connection_attempts := 0
    max_connection_attempts := 5
    reconnect_delay := 5
    last_connection_time := none
    last_message_time := none }

/-- `initialMQTTState` after a successful broker acknowledgement. -/
def connectedInit : MQTTState :=
  { initialMQTTState with is_connected := true }

/-- Embeds `MQTTService._on_connect` (lines 77-98): on `rc = 0` the service is
connected, the attempt counter resets to 0 and the connection time is
recorded (and the fixed topic set is re-subscribed); on any other `rc` the
service is marked disconnected. -/
def onConnect (s : MQTTState) (rc now : Int) : MQTTState :=
  if rc = 0 then
    { s with is_connected := true, connection_attempts := 0,
             last_connection_time := some now }
  else
    { s with is_connected := false }

/-- Embeds `MQTTService._on_disconnect` (lines 100-110): the service is marked
disconnected; if the disconnect was not caller-invoked (`rc != 0`) and the
attempt counter is below the budget, the counter is incremented and a
reconnection is attempted after sleeping `reconnect_delay` seconds — the
second component records that retry (`some delay`) or its absence. -/
def onDisconnect (s : MQTTState) (rc : Int) : MQTTState × Option Nat :=
  let s1 := { s with is_connected := false }
  if rc ≠ 0 ∧ s1.connection_attempts < s1.max_connection_attempts then
    ({ s1 with connection_attempts := s1.connection_attempts + 1 }, some s1.reconnect_delay)
  else
    (s1, none)

/-- Embeds caller-invoked `MQTTService.disconnect` (lines 205-214): stops the
loop and marks the service disconnected when it was connected. -/
def disconnectCall (s : MQTTState) : MQTTState :=
  if s.is_connected then { s with is_connected := false } else s

/-- The spec's terminal FAILED configuration expressed in the code's fields:
not connected with the retry budget exhausted, so `_on_disconnect` schedules
no further automatic retry. -/
def inFailedState (s : MQTTState) : Bool :=
  !s.is_connected && decide (s.max_connection_attempts ≤ s.connection_attempts)

/-- A run of `n` consecutive unexpected disconnects (broker-initiated,
`rc = 1`), collecting each handler invocation's retry record. -/
def runDisconnects : MQTTState → Nat → MQTTState × List (Option Nat)
  | s, 0 => (s, [])
  | s, n + 1 =>
    let p := onDisconnect s 1
    let q := runDisconnects p.1 n
    (q.1, p.2 :: q.2)

lemma set_disconnected_eq (s : MQTTState) (h : s.is_connected = false) :
    ({ s with is_connected := false } : MQTTState) = s := by
  cases s
  simp_all

lemma runDisconnects_spec (n : Nat) : ∀ s : MQTTState,
    s.max_connection_attempts = 5 → s.reconnect_delay = 5 →
    s.connection_attempts ≤ 5 →
    (runDisconnects s n).1.connection_attempts = min (s.connection_attempts + n) 5 ∧
    (runDisconnects s n).1.max_connection_attempts = 5 ∧
    (runDisconnects s n).1.reconnect_delay = 5 ∧
    (0 < n → (runDisconnects s n).1.is_connected = false) ∧
    (n = 0 → (runDisconnects s n).1 = s) ∧
    (runDisconnects s n).2.countP (fun r => r.isSome) = min n (5 - s.connection_attempts) ∧
    (∀ r ∈ (runDisconnects s n).2, r = none ∨ r = some 5) := by
  induction n with
  | zero =>
    intro s h1 h2 h3
    refine ⟨?_, h1, h2, ?_, fun _ => rfl, ?_, ?_⟩
    · simp only [runDisconnects]
      omega
    · intro h
      exact absurd h (Nat.lt_irrefl 0)
    · simp [runDisconnects]
    · simp [runDisconnects]
  | succ n ih =>
    intro s h1 h2 h3
    have hstep : runDisconnects s (n + 1) =
        ((runDisconnects (onDisconnect s 1).1 n).1,
         (onDisconnect s 1).2 :: (runDisconnects (onDisconnect s 1).1 n).2) := rfl
    by_cases hc : s.connection_attempts < s.max_connection_attempts
    · have hod : onDisconnect s 1 =
          ({ s with is_connected := false,
                    connection_attempts := s.connection_attempts + 1 },
           some s.reconnect_delay) := by
        simp [onDisconnect, hc]
      have hproj : (MQTTState.mk false (s.connection_attempts + 1)
          s.max_connection_attempts s.reconnect_delay s.last_connection_time
          s.last_message_time).connection_attempts = s.connection_attempts + 1 := rfl
      have hih := ih { s with is_connected := false,
                              connection_attempts := s.connection_attempts + 1 }
        h1 h2 (by rw [hproj] ; omega)
      rw [hstep, hod]
      obtain ⟨ha, hm, hd, hcon, hz, hcount, hall⟩ := hih
      refine ⟨?_, hm, hd, ?_, ?_, ?_, ?_⟩
      · rw [ha, hproj]
        omega
      · intro _
        rcases Nat.eq_zero_or_pos n with hn | hn
        · subst hn
          rw [hz rfl]
        · exact hcon hn
      · intro h
        exact absurd h (Nat.succ_ne_zero n)
      · simp only [List.countP_cons]
        rw [hcount, hproj]
        simp
        omega
      · intro r hr
        rcases List.mem_cons.mp hr with hr | hr
        · right
          rw [hr, h2]
        · exact hall r hr
    · have ha5 : s.connection_attempts = 5 := by omega
      have hproj : (MQTTState.mk false s.connection_attempts
          s.max_connection_attempts s.reconnect_delay s.last_connection_time
          s.last_message_time).connection_attempts = s.connection_attempts := rfl
      have hod : onDisconnect s 1 = ({ s with is_connected := false }, none) := by
        simp [onDisconnect, hc]
      have hih := ih { s with is_connected := false } h1 h2 (by rw [hproj] ; omega)
      rw [hstep, hod]
      obtain ⟨ha, hm, hd, hcon, hz, hcount, hall⟩ := hih
      refine ⟨?_, hm, hd, ?_, ?_, ?_, ?_⟩
      · rw [ha, hproj]
        omega
      · intro _
        rcases Nat.eq_zero_or_pos n with hn | hn
        · subst hn
          rw [hz rfl]
        · exact hcon hn
      · intro h
        exact absurd h (Nat.succ_ne_zero n)
      · simp only [List.countP_cons]
        rw [hcount, hproj]
        simp
        omega
      · intro r hr
        rcases List.mem_cons.mp hr with hr | hr
        · left
          exact hr
        · exact hall r hr

/-! ## Claim theorems for the Channel Manager -/

/-- Claim C3: starting connected with a fresh attempt counter, `n` consecutive
unexpected (broker-initiated) disconnects trigger `min n 5` automatic
reconnection attempts, each after a 5-second delay; once the budget of 5 is
exhausted the service is in the FAILED configuration and remains there — a
further unexpected disconnect changes nothing and schedules no retry, and a
caller-invoked `disconnect()` changes nothing — while a successful broker
acknowledgement (`_on_connect` with `rc = 0`, as produced by an explicitly
invoked `connect()` that succeeds) reconnects and resets the attempt count
to 0. -/
theorem reconnect_budget_and_failed_state (n : Nat) :
    (runDisconnects connectedInit n).2.countP (fun r => r.isSome) = min n 5 ∧
    (∀ r ∈ (runDisconnects connectedInit n).2, r = none ∨ r = some 5) ∧
    (5 ≤ n →
      inFailedState (runDisconnects connectedInit n).1 = true ∧
      onDisconnect (runDisconnects connectedInit n).1 1 =
        ((runDisconnects connectedInit n).1, none) ∧
      disconnectCall (runDisconnects connectedInit n).1 =
        (runDisconnects connectedInit n).1) ∧
    (∀ now : Int,
      (onConnect (runDisconnects connectedInit n).1 0 now).connection_attempts = 0 ∧
      (onConnect (runDisconnects connectedInit n).1 0 now).is_connected = true) := by
  obtain ⟨ha, hm, hd, hcon, hz, hcount, hall⟩ :=
    runDisconnects_spec n connectedInit rfl rfl (Nat.zero_le 5)
  have h0 : connectedInit.connection_attempts = 0 := rfl
  refine ⟨?_, hall, ?_, ?_⟩
  · rw [hcount, h0]
  · intro hn
    have hconn : (runDisconnects connectedInit n).1.is_connected = false :=
      hcon (by omega)
    have hatt : (runDisconnects connectedInit n).1.connection_attempts = 5 := by
      rw [ha, h0]
      omega
    refine ⟨?_, ?_, ?_⟩
    · simp [inFailedState, hconn, hatt, hm]
    · have heq := set_disconnected_eq (runDisconnects connectedInit n).1 hconn
      simp only [onDisconnect, heq]
      rw [if_neg]
      simp only [hatt, hm]
      omega
    · simp [disconnectCall, hconn]
  · intro now
    constructor
    · simp [onConnect]
    · simp [onConnect]

/-- Claim C3 witness: after exactly 5 consecutive unexpected disconnects from
the freshly connected state, the service is in the FAILED configuration. -/
theorem reconnect_budget_and_failed_state_witness :
    inFailedState (runDisconnects connectedInit 5).1 = true :=
  ((reconnect_budget_and_failed_state 5).2.2.1 (by decide)).1

/-- Embeds `MQTTService.publish_order` (lines 216-257): when not connected it
returns `False` immediately; otherwise it serialises the payload, attempts
exactly one network publish on `foodyeh/order/{order_id}` (recorded in the
second component) and reports whether the client returned
`MQTT_ERR_SUCCESS`, modelled by `client_rc = 0`. -/
def publish_order (s : MQTTState) (client_rc : Int) (order_id : String) :
    Bool × List String :=
  if s.is_connected = false then
    (false, [])
  else
    let topic := "foodyeh/order/" ++ order_id
    if client_rc = 0 then (true, [topic]) else (false, [topic])

/-- Embeds `MQTTService.publish_admin_command` (lines 259-295): when not
connected it returns `False` immediately; otherwise it attempts exactly one
network publish on `foodyeh/admin/{command}` at QoS 2. -/
def publish_admin_command (s : MQTTState) (client_rc : Int) (command : String) :
    Bool × List String :=
  if s.is_connected = false then
    (false, [])
  else
    let topic := "foodyeh/admin/" ++ command
    if client_rc = 0 then (true, [topic]) else (false, [topic])

/-- Claim C4: while the service is not connected, every publish call — both
ordinary order commands and administrative commands — returns `false` with no
network publish attempted; the service holds no queue, so nothing is retained
for later delivery (the embedded state is not modified by publish at all). -/
theorem publish_disconnected_fails_fast
    (s : MQTTState) (client_rc : Int) (order_id command : String)
    (h : s.is_connected = false) :
    publish_order s client_rc order_id = (false, []) ∧
    publish_admin_command s client_rc command = (false, []) := by
  constructor
  · simp [publish_order, h]
  · simp [publish_admin_command, h]

/-- Claim C4 witness: publishing an order and an admin command in the initial
(disconnected) state both fail fast with no network attempt. -/
theorem publish_disconnected_fails_fast_witness :
    publish_order initialMQTTState 0 "order-1" = (false, []) ∧
    publish_admin_command initialMQTTState 0 "reboot" = (false, []) :=
  publish_disconnected_fails_fast initialMQTTState 0 "order-1" "reboot" (by decide)

/-- Embeds `MQTTService.is_healthy` (lines 324-342): false when not connected;
when connected and a message time is recorded, false when it is more than 300
seconds old; otherwise true. -/
def is_healthy (s : MQTTState) (now : Int) : Bool :=
  if s.is_connected = false then
    false
  else
    match s.last_message_time with
    | some t => if now - t > 300 then false else true
    | none => true

/-- The health predicate as claim C7 words it: healthy exactly when connected
AND an inbound message has been observed within the last 300 seconds. -/
def is_healthy_claim (s : MQTTState) (now : Int) : Bool :=
  s.is_connected &&
    (match s.last_message_time with
     | some t => decide (now - t ≤ 300)
     | none => false)

/-- The health predicate as amended: the staleness test applies only when some
message has been observed; a connected service that has never observed one is
reported healthy. -/
def is_healthy_amended (s : MQTTState) (now : Int) : Bool :=
  s.is_connected &&
    (match s.last_message_time with
     | some t => decide (now - t ≤ 300)
     | none => true)

/-- Claim C7 counterexample: connected with no inbound message ever observed —
so in particular none within the last 300 seconds — the code reports healthy
while the claim requires unhealthy. -/
theorem is_healthy_no_message_counterexample :
    is_healthy connectedInit 1000 = true ∧
    is_healthy_claim connectedInit 1000 = false ∧
    is_healthy connectedInit 1000 ≠ is_healthy_claim connectedInit 1000 := by
  refine ⟨by decide, by decide, by decide⟩

/-- Claim C7 amended: `is_healthy` returns false whenever not connected, and
when connected with an observed message it returns false exactly when that
message is more than 300 seconds old; a connected service with no message
ever observed is healthy. -/
theorem is_healthy_staleness_characterization (s : MQTTState) (now : Int) :
    is_healthy s now = is_healthy_amended s now := by
  obtain ⟨c, a, m, d, lc, lm⟩ := s
  cases c
  · cases lm <;> simp [is_healthy, is_healthy_amended]
  · cases lm with
    | none => simp [is_healthy, is_healthy_amended]
    | some t =>
      simp only [is_healthy, is_healthy_amended]
      by_cases h : now - t > 300
      · rw [if_neg (by simp), if_pos h]
        simp only [Bool.true_and]
        symm
        simp only [decide_eq_false_iff_not]
        omega
      · rw [if_neg (by simp), if_neg h]
        simp only [Bool.true_and]
        symm
        simp only [decide_eq_true_eq]
        omega

/-- Outcome of one inbound message dispatch in `_on_message`. -/
inductive MsgOutcome where
  | decodeFailure : MsgOutcome
  | handled : MsgOutcome
  | handlerError (e : String) : MsgOutcome
  | noHandler : MsgOutcome
deriving DecidableEq

/-- Embeds `MQTTService._on_message` (lines 112-138): the message time is
recorded; a payload that fails to decode as structured data (`payload = none`)
is logged and dropped; a registered handler that raises (`Except.error`) is
caught and logged; a topic with no registered handler is logged at debug
level.  In every case the function returns normally — no exception escapes
into the client loop. -/
def on_message (s : MQTTState) (handlers : String → Option (String → Except String Unit))
    (topic : String) (payload : Option String) (now : Int) : MQTTState × MsgOutcome :=
  let s1 := { s with last_message_time := some now }
  match payload with
  | none => (s1, MsgOutcome.decodeFailure)
  | some data =>
    match handlers topic with
    | some h =>
      match h data with
      | Except.ok _ => (s1, MsgOutcome.handled)
      | Except.error e => (s1, MsgOutcome.handlerError e)
    | none => (s1, MsgOutcome.noHandler)

/-- Claim C9: for every inbound message — decode failure, faulting handler, or
unregistered topic — the message is fully contained: the dispatch returns
normally with the corresponding dropped/caught/ignored outcome, and no field
of the connection state machine (connectedness, attempt counter, budget,
delay, connection time) is altered; only the message timestamp is updated. -/
theorem on_message_containment
    (s : MQTTState) (handlers : String → Option (String → Except String Unit))
    (topic : String) (payload : Option String) (now : Int) :
    ((on_message s handlers topic payload now).1.is_connected = s.is_connected ∧
     (on_message s handlers topic payload now).1.connection_attempts =
       s.connection_attempts ∧
     (on_message s handlers topic payload now).1.max_connection_attempts =
       s.max_connection_attempts ∧
     (on_message s handlers topic payload now).1.reconnect_delay = s.reconnect_delay ∧
     (on_message s handlers topic payload now).1.last_connection_time =
       s.last_connection_time) ∧
    (payload = none → (on_message s handlers topic payload now).2 =
      MsgOutcome.decodeFailure) ∧
    (∀ d, payload = some d → handlers topic = none →
      (on_message s handlers topic payload now).2 = MsgOutcome.noHandler) ∧
    (∀ d h e, payload = some d → handlers topic = some h → h d = Except.error e →
      (on_message s handlers topic payload now).2 = MsgOutcome.handlerError e) ∧
    (∀ d h, payload = some d → handlers topic = some h → h d = Except.ok () →
      (on_message s handlers topic payload now).2 = MsgOutcome.handled) := by
  refine ⟨?_, ?_, ?_, ?_, ?_⟩
  · rcases payload with _ | d
    · simp [on_message]
    · rcases hh : handlers topic with _ | h
      · simp [on_message, hh]
      · rcases hr : h d with e | u
        · simp [on_message, hh, hr]
        · simp [on_message, hh, hr]
  · intro hp
    subst hp
    simp [on_message]
  · intro d hp hh
    subst hp
    simp [on_message, hh]
  · intro d h e hp hh hr
    subst hp
    simp [on_message, hh, hr]
  · intro d h hp hh hr
    subst hp
    simp [on_message, hh, hr]

/-- Claim C9 witness: a message on a topic with no registered handler is
dispatched to the no-handler outcome, taken from the containment theorem at a
concrete state and registry. -/
theorem on_message_containment_witness :
    (on_message initialMQTTState (fun _ => none) "foodyeh/status"
      (some "data") 7).2 = MsgOutcome.noHandler :=
  (on_message_containment initialMQTTState (fun _ => none) "foodyeh/status"
    (some "data") 7).2.2.1 "data" rfl rfl

/-! ## Claim C10: client IP derivation (`RateLimiter._get_client_ip`) -/

/-- Python truthiness of an optional header value: `None` and the empty
string are falsy. -/
def pyTruthy (o : Option String) : Bool :=
  match o with
  | none => false
  | some s => decide (s ≠ "")

/-- Embeds `s.split(",")[0]`: the characters before the first comma. -/
def firstCommaField (s : String) : String :=
  String.mk (s.toList.takeWhile (fun c => c ≠ ','))

/-- Embeds Python `str.strip()`: drop leading and trailing whitespace. -/
def pyStrip (s : String) : String :=
  String.mk (((s.toList.dropWhile Char.isWhitespace).reverse.dropWhile
    Char.isWhitespace).reverse)

/-- Embeds `RateLimiter._get_client_ip` (rate_limiter.py lines 31-42):
`request.headers.get("X-Forwarded-For")` is consulted first and used — first
comma-separated entry, stripped — when truthy; then
`request.headers.get("X-Real-IP")` when truthy; then `request.client.host`
when `request.client` exists; else the literal `"unknown"`. -/
def get_client_ip (headers : String → Option String) (client : Option String) : String :=
  let forwarded_for := headers "X-Forwarded-For"
  if pyTruthy forwarded_for then
    pyStrip (firstCommaField (forwarded_for.getD ""))
  else
    let real_ip := headers "X-Real-IP"
    if pyTruthy real_ip then
      real_ip.getD ""
    else
      match client with
      | some host => host
      | none => "unknown"

/-- The derivation as claim C10 words it: the X-Forwarded-For branch is taken
whenever the header is PRESENT (empty or not), and likewise X-Real-IP. -/
def get_client_ip_claim (headers : String → Option String) (client : Option String) :
    String :=
  match headers "X-Forwarded-For" with
  | some ff => pyStrip (firstCommaField ff)
  | none =>
    match headers "X-Real-IP" with
    | some ri => ri
    | none =>
      match client with
      | some host => host
      | none => "unknown"

/-- The derivation as amended: a header wins only when present AND non-empty;
an empty value falls through to the next source. -/
def get_client_ip_amended (headers : String → Option String) (client : Option String) :
    String :=
  match headers "X-Forwarded-For" with
  | some ff =>
    if ff = "" then
      match headers "X-Real-IP" with
      | some ri => if ri = "" then client.getD "unknown" else ri
      | none => client.getD "unknown"
    else
      pyStrip (firstCommaField ff)
  | none =>
    match headers "X-Real-IP" with
    | some ri => if ri = "" then client.getD "unknown" else ri
    | none => client.getD "unknown"

/-- A request whose X-Forwarded-For header is present but empty while
X-Real-IP carries an address. -/
def emptyForwardedForHeaders : String → Option String := fun h =>
  if h = "X-Forwarded-For" then some ""
  else if h = "X-Real-IP" then some "9.9.9.9"
  else none

/-- Claim C10 counterexample: with X-Forwarded-For present but empty, the code
skips it (Python truthiness) and returns the X-Real-IP value, while the
claimed precedence — which keys on mere presence — would return the empty
first entry of X-Forwarded-For. -/
theorem client_ip_empty_header_counterexample :
    get_client_ip emptyForwardedForHeaders none = "9.9.9.9" ∧
    get_client_ip_claim emptyForwardedForHeaders none = "" ∧
    get_client_ip emptyForwardedForHeaders none ≠
      get_client_ip_claim emptyForwardedForHeaders none := by
  refine ⟨by decide, by decide, by decide⟩

/-- Claim C10 amended: the IP identity is derived by the fixed precedence
X-Forwarded-For (first comma-separated entry, whitespace-trimmed) when present
and non-empty, else X-Real-IP when present and non-empty, else the transport
peer address, else `"unknown"`; the derivation is a pure function of the
headers and peer address. -/
theorem client_ip_precedence_amended
    (headers : String → Option String) (client : Option String) :
    get_client_ip headers client = get_client_ip_amended headers client := by
  rcases hf : headers "X-Forwarded-For" with _ | ff
  · rcases hr : headers "X-Real-IP" with _ | ri
    · rcases client with _ | host <;>
        simp [get_client_ip, get_client_ip_amended, pyTruthy, hf, hr]
    · by_cases hri : ri = ""
      · subst hri
        rcases client with _ | host <;>
          simp [get_client_ip, get_client_ip_amended, pyTruthy, hf, hr]
      · simp [get_client_ip, get_client_ip_amended, pyTruthy, hf, hr, hri]
  · by_cases hff : ff = ""
    · subst hff
      rcases hr : headers "X-Real-IP" with _ | ri
      · rcases client with _ | host <;>
          simp [get_client_ip, get_client_ip_amended, pyTruthy, hf, hr]
      · by_cases hri : ri = ""
        · subst hri
          rcases client with _ | host <;>
            simp [get_client_ip, get_client_ip_amended, pyTruthy, hf, hr]
        · simp [get_client_ip, get_client_ip_amended, pyTruthy, hf, hr, hri]
    · simp [get_client_ip, get_client_ip_amended, pyTruthy, hf, hff]

end FoodYeh
